import Mathlib

/-! ban-types: the rule's matching and traversal core.

A shallow embedding of `lib/rules/ban-types.js`.  Syntax-tree nodes are
plain JavaScript values; every helper of the rule is a function from the
compiled ruleset and a node to an `Outcome`: the diagnostics handed to
`context.report`, in order, and whether the call ended by raising.
-/

namespace BanTypes

/-! ## JavaScript values -/

/-- A JavaScript value as the rule can meet one inside a syntax tree. -/
inductive JSValue where
  | undefined
  | null
  | bool (b : Bool)
  | num (n : Int)
  | str (s : String)
  | arr (items : List JSValue)
  | obj (props : List (String × JSValue))

/-- The one error the rule's own code can raise: reading a property of
`undefined` or `null`, or calling something that is not a function. -/
inductive JSError where
  | typeError
  deriving DecidableEq, Repr

/-- Own-property lookup in an object literal, `undefined` when absent. -/
def lookup (key : String) : List (String × JSValue) → JSValue
  | [] => JSValue.undefined
  | (k, v) :: rest => if k = key then v else lookup key rest

/-- Property read `v.key` for the property names the rule uses (none of them
is defined on arrays, strings, numbers or booleans).  `none` stands for the
TypeError raised on `undefined` and `null`. -/
def JSValue.get (v : JSValue) (key : String) : Option JSValue :=
  match v with
  | JSValue.undefined => none
  | JSValue.null => none
  | JSValue.obj props => some (lookup key props)
  | _ => some JSValue.undefined

/-- Truthiness of a value, as used by `if (x)`, `!x` and `&&`. -/
def JSValue.truthy : JSValue → Bool
  | JSValue.undefined => false
  | JSValue.null => false
  | JSValue.bool b => b
  | JSValue.num n => n != 0
  | JSValue.str s => s != ""
  | JSValue.arr _ => true
  | JSValue.obj _ => true

/-- Strict comparison `v === "s"` against a string literal. -/
def JSValue.isStr (v : JSValue) (s : String) : Bool :=
  match v with
  | JSValue.str t => t == s
  | _ => false

/-! ## Ruleset and diagnostics -/

/-- A compiled regular expression, seen through its `test` method. -/
structure RegExp where
  test : String → Bool

/-- One entry of `bannedTypes`. -/
structure BannedType where
  message : String
  pattern : RegExp

/-- The `data` object of a report. -/
structure ReportData where
  type_ : String
  additionalMessage : String

/-- The descriptor passed to `context.report`. -/
structure Report where
  node : JSValue
  messageId : String
  data : ReportData

/-- What a call did: the reports it made, in order, and the error it raised,
if any. -/
structure Outcome where
  reports : List Report
  raised : Option JSError

/-- A call that returns without reporting. -/
def Outcome.done : Outcome := ⟨[], none⟩

/-- A call that raises without reporting. -/
def Outcome.throw : Outcome := ⟨[], some JSError.typeError⟩

/-- Statement sequencing `a; b`: the second statement runs only when the
first one returned. -/
def Outcome.seq (a b : Outcome) : Outcome :=
  match a.raised with
  | some e => ⟨a.reports, some e⟩
  | none => ⟨a.reports ++ b.reports, b.raised⟩

/-- The loop of `Array.prototype.forEach` over the elements. -/
def forEachItems (f : JSValue → Outcome) : List JSValue → Outcome
  | [] => Outcome.done
  | x :: rest => (f x).seq (forEachItems f rest)

/-- The call `v.forEach(f)`: only an array has the method. -/
def forEach (v : JSValue) (f : JSValue → Outcome) : Outcome :=
  match v with
  | JSValue.arr items => forEachItems f items
  | _ => Outcome.throw

/-- A property read `v.key` followed by the rest of the statement; reading a
property of `undefined` or `null` raises. -/
def JSValue.read (v : JSValue) (key : String) (k : JSValue → Outcome) : Outcome :=
  match v.get key with
  | none => Outcome.throw
  | some x => k x

/-! ## The helpers of `create` -/

/-- The `for (const banned of bannedTypes)` loop of `checkType`. -/
def checkTypeLoop (node : JSValue) (type : String) : List BannedType → List Report
  | [] => []
  | banned :: rest =>
    if banned.pattern.test type then
      ⟨node, "bannedType", ⟨type, banned.message⟩⟩ :: checkTypeLoop node type rest
    else
      checkTypeLoop node type rest

/-- Embeds `checkType(node)`. -/
def checkType (bannedTypes : List BannedType) (node : JSValue) : Outcome :=
  match node.get "name" with
  | none => Outcome.throw
  | some (JSValue.str type) => ⟨checkTypeLoop node type bannedTypes, none⟩
  | some _ => Outcome.done

/-- Embeds `visitTypeParameterInstantiation(node)`. -/
def visitTypeParameterInstantiation (bannedTypes : List BannedType) (node : JSValue) : Outcome :=
  node.read "params" fun params =>
    if params.truthy then forEach params (checkType bannedTypes) else Outcome.done

/-- The arrow function passed to `forEach` in `visitTypeParameterDeclaration`. -/
def visitTypeParameter (bannedTypes : List BannedType) (param : JSValue) : Outcome :=
  param.read "type" fun t =>
    if t.isStr "TypeParameter" then
      param.read "default" fun d =>
        if d.truthy then checkType bannedTypes d else Outcome.done
    else Outcome.done

/-- Embeds `visitTypeParameterDeclaration(node)`. -/
def visitTypeParameterDeclaration (bannedTypes : List BannedType) (node : JSValue) : Outcome :=
  node.read "params" fun params =>
    if params.truthy then forEach params (visitTypeParameter bannedTypes) else Outcome.done

/-- Embeds `visitTypeAnnotation(node)`. -/
def visitTypeAnnotation (bannedTypes : List BannedType) (node : JSValue) : Outcome :=
  node.read "typeAnnotation" fun annotation =>
    annotation.read "type" fun ty =>
      if ty.isStr "TSFunctionType" then
        annotation.read "typeParameters" fun tps =>
          if tps.truthy then visitTypeParameterDeclaration bannedTypes tps else Outcome.done
      else if ty.isStr "TSTypeReference" then
        ( annotation.read "typeParameters" fun tps =>
          if tps.truthy then visitTypeParameterInstantiation bannedTypes tps
          else Outcome.done).seq
        (node.read "typeName" fun typeName => checkType bannedTypes typeName)
      else
        checkType bannedTypes annotation

/-- Embeds `visitVariableDeclarator(node)`. -/
def visitVariableDeclarator (bannedTypes : List BannedType) (node : JSValue) : Outcome :=
  node.read "id" fun id =>
    if !id.truthy then Outcome.done
    else
      id.read "typeAnnotation" fun ta =>
        if !ta.truthy then Outcome.done else visitTypeAnnotation bannedTypes ta

/-- The arrow function passed to `forEach` in `visitFunction`. -/
def visitParam (bannedTypes : List BannedType) (param : JSValue) : Outcome :=
  param.read "typeAnnotation" fun ta =>
    if ta.truthy then visitTypeAnnotation bannedTypes ta else Outcome.done

/-- Embeds `visitFunction(node)`. -/
def visitFunction (bannedTypes : List BannedType) (node : JSValue) : Outcome :=
  (node.read "returnType" fun returnType =>
    if returnType.truthy then visitTypeAnnotation bannedTypes returnType
    else Outcome.done).seq
  ((node.read "typeParameters" fun typeParameters =>
    if typeParameters.truthy then visitTypeParameterDeclaration bannedTypes typeParameters
    else Outcome.done).seq
  (node.read "params" fun params =>
    if params.truthy then forEach params (visitParam bannedTypes) else Outcome.done))

/-- Embeds `visitClass(node)`. -/
def visitClass (bannedTypes : List BannedType) (node : JSValue) : Outcome :=
  node.read "typeParameters" fun typeParameters =>
    if typeParameters.truthy then visitTypeParameterDeclaration bannedTypes typeParameters
    else Outcome.done

/-- Embeds `visitExpressionStatement(node)`. -/
def visitExpressionStatement (bannedTypes : List BannedType) (node : JSValue) : Outcome :=
  node.read "expression" fun expression =>
    if !expression.truthy then Outcome.done
    else
      expression.read "typeParameters" fun tps =>
        if !tps.truthy then Outcome.done
        else visitTypeParameterInstantiation bannedTypes tps

/-! ## Syntax trees

The trees the parser builds for the programs of the rule's tests, with the
properties the rule reads (positions are left out). -/

/-- An identifier node. -/
def Identifier (name : String) : JSValue :=
  JSValue.obj [("type", JSValue.str "Identifier"), ("name", JSValue.str name)]

/-- The list of explicit generic arguments `<a1, ..., ak>`. -/
def TypeParameterInstantiation (params : List JSValue) : JSValue :=
  JSValue.obj [("type", JSValue.str "TypeParameterInstantiation"),
    ("params", JSValue.arr params)]

/-- A named type reference `Name` (no `typeParameters` property) or
`Name<a1, ..., ak>`: the name is held by the `typeName` identifier. -/
def TSTypeReference (name : String) (args : List JSValue) : JSValue :=
  match args with
  | [] => JSValue.obj [("type", JSValue.str "TSTypeReference"), ("typeName", Identifier name)]
  | _ :: _ =>
    JSValue.obj [("type", JSValue.str "TSTypeReference"), ("typeName", Identifier name),
      ("typeParameters", TypeParameterInstantiation args)]

/-- The wrapper `: T` that an annotated identifier, parameter or function
holds in `typeAnnotation` or `returnType`. -/
def TypeAnnotation ( annotation : JSValue) : JSValue :=
  JSValue.obj [("type", JSValue.str "TypeAnnotation"), ("typeAnnotation", annotation)]

/-- An identifier with a type annotation, `name: T`. -/
def AnnotatedIdentifier (name : String) ( annotation : JSValue) : JSValue :=
  JSValue.obj [("type", JSValue.str "Identifier"), ("name", JSValue.str name),
    ("typeAnnotation", TypeAnnotation annotation)]

/-- The declarator of `const id;`, `let id;` or `var id;`. -/
def VariableDeclarator (id : JSValue) : JSValue :=
  JSValue.obj [("type", JSValue.str "VariableDeclarator"), ("id", id), ("init", JSValue.null)]

/-- The binding `foo: T`, as declared by `const foo: T;`. -/
def binding ( annotation : JSValue) : JSValue :=
  VariableDeclarator (AnnotatedIdentifier "foo" annotation)

/-- The test function of the pattern compiled from a plain identifier `p`,
`new RegExp("^p$")`: the whole string is `p`. -/
def RegExp.exact (p : String) : RegExp := ⟨fun s => s == p⟩

/-- The entry `create` pushes for the option `[p]` (message `""`) or
`[p, message]`, `p` a plain identifier. -/
def ruleFor (p : String) (message : String) : BannedType := ⟨message, RegExp.exact p⟩

/-- A plain named type `Name`, as it stands in a generic-argument list or as
a type parameter's default. -/
def namedType (name : String) : JSValue := TSTypeReference name []

/-- The annotation `Outer<Outer<... <banned> ...>>` with `d` enclosing generic
references around the innermost name. -/
def nested (banned : String) : Nat → JSValue
  | 0 => namedType banned
  | d + 1 => TSTypeReference "Outer" [nested banned d]

/-- A function-type signature `(parameters) => returnType` without type
parameters; `returnType` is the wrapper of the return type. -/
def TSFunctionType (parameters : List JSValue) (returnType : JSValue) : JSValue :=
  JSValue.obj [("type", JSValue.str "TSFunctionType"),
    ("parameters", JSValue.arr parameters), ("typeAnnotation", returnType)]

/-- A declared type parameter `name` or `name = default`; the parser stores
the name as a string and `undefined` for a missing default. -/
def TypeParameter (name : String) (default : JSValue) : JSValue :=
  JSValue.obj [("type", JSValue.str "TypeParameter"), ("name", JSValue.str name),
    ("constraint", JSValue.undefined), ("default", default)]

/-- The list of declared type parameters `<T, U = D>` of a function, class or
function-type signature. -/
def TypeParameterDeclaration (params : List JSValue) : JSValue :=
  JSValue.obj [("type", JSValue.str "TypeParameterDeclaration"),
    ("params", JSValue.arr params)]

/-- A function node of the given kind (`FunctionDeclaration`,
`FunctionExpression` or `ArrowFunctionExpression`); `undefined` stands for a
missing type-parameter list or return type. -/
def FunctionNode (kind : String) (typeParameters : JSValue) (params : List JSValue)
    (returnType : JSValue) : JSValue :=
  JSValue.obj [("type", JSValue.str kind), ("id", JSValue.null),
    ("params", JSValue.arr params), ("typeParameters", typeParameters),
    ("returnType", returnType)]

/-- A class expression `class<...> {}` with the given type-parameter list. -/
def ClassExpression (typeParameters : JSValue) : JSValue :=
  JSValue.obj [("type", JSValue.str "ClassExpression"), ("id", JSValue.null),
    ("superClass", JSValue.null), ("typeParameters", typeParameters)]

/-- The constructor invocation `new callee<typeArguments>()`. -/
def NewExpression (callee : String) (typeArguments : List JSValue) : JSValue :=
  JSValue.obj [("type", JSValue.str "NewExpression"), ("callee", Identifier callee),
    ("arguments", JSValue.arr []),
    ("typeParameters", TypeParameterInstantiation typeArguments)]

/-- The call `callee<typeArguments>()`. -/
def CallExpression (callee : String) (typeArguments : List JSValue) : JSValue :=
  JSValue.obj [("type", JSValue.str "CallExpression"), ("callee", Identifier callee),
    ("arguments", JSValue.arr []),
    ("typeParameters", TypeParameterInstantiation typeArguments)]

/-- An expression statement `expression;`. -/
def ExpressionStatement (expression : JSValue) : JSValue :=
  JSValue.obj [("type", JSValue.str "ExpressionStatement"), ("expression", expression)]

/-- Whether `checkType` finds a string `name` on the node that some rule of
the ruleset matches. -/
def nameMatches (bannedTypes : List BannedType) (node : JSValue) : Bool :=
  match node.get "name" with
  | some (JSValue.str type) => bannedTypes.any fun banned => banned.pattern.test type
  | _ => false

/-- The report `checkType` makes for `node`, named `type`, under the rule
`banned`. -/
def reportFor (node : JSValue) (type : String) (banned : BannedType) : Report :=
  ⟨node, "bannedType", ⟨type, banned.message⟩⟩

/-! ## The configuration and `create` -/

/-- The characters that have a syntactic role in a pattern source. -/
def isSyntaxCharacter (c : Char) : Bool :=
  [94, 36, 92, 46, 42, 43, 63, 40, 41, 91, 93, 123, 125, 124].contains c.toNat

/-- The terms of the patterns the embedding interprets itself: the
assertions `^` and `$` and a pattern character standing for itself. -/
inductive PatternTerm where
  | assertStart
  | assertEnd
  | char (c : Char)

/-- One character of a pattern source read as a term: `^`, `$`, or a
character that is not a syntax character; any other syntax character is
outside the interpreted patterns. -/
def parseTerm (c : Char) : Option PatternTerm :=
  if c.toNat = 94 then some PatternTerm.assertStart
  else if c.toNat = 36 then some PatternTerm.assertEnd
  else if isSyntaxCharacter c then none
  else some (PatternTerm.char c)

/-- A pattern source read as a sequence of terms. -/
def parsePattern : List Char → Option (List PatternTerm)
  | [] => some []
  | c :: rest =>
    match parseTerm c, parsePattern rest with
    | some t, some ts => some (t :: ts)
    | _, _ => none

/-- Matching a sequence of terms at one position of the input: `atStart`
tells whether the position is index 0, `input` is what is left from the
position on.  Without flags `^` holds only at index 0 and `$` only at the
end of the input. -/
def matchTerms : List PatternTerm → Bool → List Char → Bool
  | [], _, _ => true
  | PatternTerm.assertStart :: ts, atStart, input => atStart && matchTerms ts atStart input
  | PatternTerm.assertEnd :: ts, atStart, input => input.isEmpty && matchTerms ts atStart input
  | PatternTerm.char c :: ts, _, d :: input => d == c && matchTerms ts false input
  | PatternTerm.char _ :: _, _, [] => false

/-- Modelled from the spec: the host's `RegExp.prototype.test`, which is not
part of the repository.  A pattern is matched as a regular expression over
the whole input, not as a literal: it is tried at every index of the input,
from 0 to its length. -/
def searchFrom (terms : List PatternTerm) : Bool → List Char → Bool
  | atStart, [] => matchTerms terms atStart []
  | atStart, d :: input =>
    matchTerms terms atStart (d :: input) || searchFrom terms false input

/-- Modelled from the spec: the host's constructor `new RegExp(source)`, which
is not part of the repository; `none` when it raises a SyntaxError.  Sources
made of `^`, `$` and characters without a syntactic role are interpreted here
(an anchored pattern is matched against the whole string); for every other
source the outcome is the one of the parameter `host`. -/
def newRegExp (host : String → Option RegExp) (source : String) : Option RegExp :=
  match parsePattern source.toList with
  | some terms => some ⟨fun s => searchFrom terms true s.toList⟩
  | none => host source

/-- One entry `[rawName]` or `[rawName, message]` of `context.options`, as
the schema admits it. -/
structure ConfigEntry where
  rawName : String
  message : Option String

/-- The value of `option[1] || ""`. -/
def ConfigEntry.messageOrEmpty (option : ConfigEntry) : String :=
  match option.message with
  | some m => if m != "" then m else ""
  | none => ""

/-- The loop `for (const option of context.options)` of `create`; `none`
when a `new RegExp` raises, which ends `create`. -/
def createLoop (host : String → Option RegExp) : List ConfigEntry → Option (List BannedType)
  | [] => some []
  | option :: rest =>
    match newRegExp host ("^" ++ option.rawName ++ "$") with
    | none => none
    | some pattern =>
      match createLoop host rest with
      | none => none
      | some bannedTypes => some (⟨option.messageOrEmpty, pattern⟩ :: bannedTypes)

/-- The array `bannedTypes` that `create` builds from `context.options`. -/
def createBannedTypes (host : String → Option RegExp) (options : Option (List ConfigEntry)) :
    Option (List BannedType) :=
  match options with
  | none => some []
  | some entries => createLoop host entries

/-- The object `create` returns: the handler registered for each node kind. -/
def handlers (bannedTypes : List BannedType) : List (String × (JSValue → Outcome)) :=
  [("VariableDeclarator", visitVariableDeclarator bannedTypes),
   ("FunctionDeclaration", visitFunction bannedTypes),
   ("FunctionExpression", visitFunction bannedTypes),
   ("ArrowFunctionExpression", visitFunction bannedTypes),
   ("ClassDeclaration", visitClass bannedTypes),
   ("ClassExpression", visitClass bannedTypes),
   ("ExpressionStatement", visitExpressionStatement bannedTypes)]

/-- Embeds `create(context)`: the handlers, or `none` when compiling the
options raised. -/
def create (host : String → Option RegExp) (options : Option (List ConfigEntry)) :
    Option (List (String × (JSValue → Outcome))) :=
  match createBannedTypes host options with
  | none => none
  | some bannedTypes => some (handlers bannedTypes)

/-- A keyword type such as `string` (`kind` is `TSStringKeyword`): the node
holds its kind only. -/
def TSKeyword (kind : String) : JSValue := JSValue.obj [("type", JSValue.str kind)]

/-- A report is sound for a ruleset: its message id is `bannedType`, its
`type` is the string name of the node it is made on, and some rule of the
ruleset matches that name and supplies the additional message. -/
def SoundReport (bannedTypes : List BannedType) (r : Report) : Prop :=
  r.messageId = "bannedType"
  ∧ r.node.get "name" = some (JSValue.str r.data.type_)
  ∧ ∃ banned ∈ bannedTypes,
      banned.pattern.test r.data.type_ = true ∧ r.data.additionalMessage = banned.message

/-- Every report of an outcome has the property `P`. -/
def Outcome.AllReports (P : Report → Prop) (o : Outcome) : Prop :=
  ∀ r ∈ o.reports, P r

/-! ## Alternation in a pattern, and full matches -/

/-- A pattern source cut at every `|`: the sources of its alternatives, in
order. -/
def splitAlternatives : List Char → List (List Char)
  | [] => [[]]
  | c :: rest =>
    if c.toNat = 124 then [] :: splitAlternatives rest
    else
      match splitAlternatives rest with
      | [] => [[c]]
      | first :: others => (c :: first) :: others

/-- Every alternative read as a sequence of terms. -/
def parseAlternatives : List (List Char) → Option (List (List PatternTerm))
  | [] => some []
  | source :: rest =>
    match parsePattern source, parseAlternatives rest with
    | some terms, some others => some (terms :: others)
    | _, _ => none

/-- Modelled from the spec: the host's constructor `new RegExp(source)`, which
is not part of the repository, on a source whose alternatives, separated by
`|`, are made of `^`, `$` and characters without a syntactic role: `|` binds
weaker than everything else, and `test` answers whether some alternative
matches at some index of the input.  `none` for any other source. -/
def alternationRegExp (source : String) : Option RegExp :=
  match parseAlternatives (splitAlternatives source.toList) with
  | some alternatives =>
    some ⟨fun s => alternatives.any fun terms => searchFrom terms true s.toList⟩
  | none => none

/-- The name is fully matched by the pattern `source`: some alternative of the
pattern matches from index 0 of the name up to its end. -/
def fullyMatches (source : String) (name : String) : Bool :=
  match parseAlternatives (splitAlternatives source.toList) with
  | some alternatives =>
    alternatives.any fun terms =>
      matchTerms (terms ++ [PatternTerm.assertEnd]) true name.toList
  | none => false

/-! ## Trees as the parser builds them -/

/-- The child `v.key` of a node, `undefined` when there is no such child. -/
def JSValue.child (v : JSValue) (key : String) : JSValue :=
  match v.get key with
  | some x => x
  | none => JSValue.undefined

/-- The elements of an array, none for any other value. -/
def JSValue.items : JSValue → List JSValue
  | JSValue.arr xs => xs
  | _ => []

/-- The value is a node or another value, not `undefined` or `null`. -/
def JSValue.present : JSValue → Bool
  | JSValue.undefined => false
  | JSValue.null => false
  | _ => true

/-- The value holds no string `name` of its own.  That is how the parser
builds every type node (a reference keeps its name in the identifier under
`typeName`, a keyword or a function type has none); an absent child has none
either. -/
def hasNoName (v : JSValue) : Bool :=
  match v.get "name" with
  | some (JSValue.str _) => false
  | _ => true

/-- A list of generic arguments as the parser builds it: every argument is
a type node. -/
def typeArgumentsParsed (typeParameters : JSValue) : Bool :=
  (typeParameters.child "params").items.all hasNoName

/-- A list of declared type parameters as the parser builds it: the default
of every parameter, when there is one, is a type node. -/
def typeParameterDefaultsParsed (typeParameters : JSValue) : Bool :=
  (typeParameters.child "params").items.all fun param => hasNoName (param.child "default")

/-- A type-annotation wrapper as the parser builds it: the wrapper holds the
annotation and no name; the annotation is a type node; the `typeParameters`
of a function type are declared type parameters, those of a named type
reference are generic arguments. -/
def typeAnnotationParsed (wrapper : JSValue) : Bool :=
  hasNoName (wrapper.child "typeAnnotation")
  && hasNoName (wrapper.child "typeName")
  && (if ((wrapper.child "typeAnnotation").child "type").isStr "TSFunctionType" then
        typeParameterDefaultsParsed ((wrapper.child "typeAnnotation").child "typeParameters")
      else if ((wrapper.child "typeAnnotation").child "type").isStr "TSTypeReference" then
        typeArgumentsParsed ((wrapper.child "typeAnnotation").child "typeParameters")
      else true)

/-- A node as the parser builds it, as far as the handlers read it, any
optional child being possibly absent: the annotation of the declared
identifier, the return type and the annotation of every parameter are
type-annotation wrappers, the defaults of the type parameters are type nodes,
and every element of the expression's `typeParameters.params` is a node. -/
def parsedNode (node : JSValue) : Bool :=
  typeAnnotationParsed ((node.child "id").child "typeAnnotation")
  && typeAnnotationParsed (node.child "returnType")
  && typeParameterDefaultsParsed (node.child "typeParameters")
  && ((node.child "params").items.all fun param =>
        typeAnnotationParsed (param.child "typeAnnotation"))
  && (((node.child "expression").child "typeParameters").child "params").items.all
        JSValue.present

/-! ## Lemmas on the helpers -/

theorem seq_done_left (b : Outcome) : Outcome.done.seq b = b := by
  cases b
  simp [Outcome.seq, Outcome.done]

theorem seq_throw_left (b : Outcome) : Outcome.throw.seq b = Outcome.throw := by
  simp [Outcome.seq, Outcome.throw]

theorem checkTypeLoop_eq_filter (node : JSValue) (type : String) (bannedTypes : List BannedType) :
    checkTypeLoop node type bannedTypes =
      (bannedTypes.filter fun b => b.pattern.test type).map (reportFor node type) := by
  induction bannedTypes with
  | nil => rfl
  | cons b rest ih =>
    by_cases h : b.pattern.test type = true
    · simp [checkTypeLoop, h, ih, reportFor]
    · simp [checkTypeLoop, h, ih]

theorem checkTypeLoop_no_match (node : JSValue) (type : String) (bannedTypes : List BannedType)
    (h : (bannedTypes.any fun b => b.pattern.test type) = false) :
    checkTypeLoop node type bannedTypes = [] := by
  induction bannedTypes with
  | nil => rfl
  | cons b rest ih =>
    simp only [List.any_cons, Bool.or_eq_false_iff] at h
    simp [checkTypeLoop, h.1, ih h.2]

theorem checkType_namedType (bannedTypes : List BannedType) (name : String) :
    checkType bannedTypes (namedType name) = Outcome.done := by
  simp [checkType, namedType, TSTypeReference, JSValue.get, lookup]

theorem checkType_TSTypeReference (bannedTypes : List BannedType) (name : String)
    (args : List JSValue) :
    checkType bannedTypes (TSTypeReference name args) = Outcome.done := by
  cases args <;> simp [checkType, TSTypeReference, JSValue.get, lookup]

theorem checkType_obj_raised (bannedTypes : List BannedType) (props : List (String × JSValue)) :
    (checkType bannedTypes (JSValue.obj props)).raised = none := by
  simp only [checkType, JSValue.get]
  split <;> simp_all [Outcome.done]

theorem checkType_of_not_nameMatches (bannedTypes : List BannedType)
    (props : List (String × JSValue))
    (h : nameMatches bannedTypes (JSValue.obj props) = false) :
    checkType bannedTypes (JSValue.obj props) = Outcome.done := by
  simp only [nameMatches, JSValue.get] at h
  simp only [checkType, JSValue.get]
  split
  · simp_all
  · rename_i type heq
    simp only [Option.some.injEq] at heq
    rw [heq] at h
    simp only at h
    simp [checkTypeLoop_no_match _ _ _ h, Outcome.done]
  · rfl

theorem forEachItems_done (f : JSValue → Outcome) (items : List JSValue)
    (h : ∀ x ∈ items, f x = Outcome.done) : forEachItems f items = Outcome.done := by
  induction items with
  | nil => rfl
  | cons x rest ih =>
    simp only [forEachItems]
    rw [h x (List.mem_cons_self _ _), seq_done_left]
    exact ih fun y hy => h y (List.mem_cons_of_mem _ hy)

theorem truthy_TypeParameterInstantiation (params : List JSValue) :
    (TypeParameterInstantiation params).truthy = true := rfl

theorem visitTypeParameterInstantiation_params (bannedTypes : List BannedType)
    (params : List JSValue) :
    visitTypeParameterInstantiation bannedTypes (TypeParameterInstantiation params) =
      forEachItems (checkType bannedTypes) params := by
  simp [visitTypeParameterInstantiation, TypeParameterInstantiation, JSValue.read, JSValue.get,
    lookup, JSValue.truthy, forEach]

theorem visitTypeParameterInstantiation_namedTypes (bannedTypes : List BannedType)
    (names : List String) :
    visitTypeParameterInstantiation bannedTypes
      (TypeParameterInstantiation (names.map namedType)) = Outcome.done := by
  rw [visitTypeParameterInstantiation_params]
  apply forEachItems_done
  intro x hx
  obtain ⟨n, -, rfl⟩ := List.mem_map.1 hx
  exact checkType_namedType bannedTypes n

theorem visitTypeAnnotation_TSTypeReference (bannedTypes : List BannedType) (name : String)
    (names : List String) :
    visitTypeAnnotation bannedTypes
      ( TypeAnnotation (TSTypeReference name (names.map namedType))) = Outcome.throw := by
  cases names with
  | nil =>
    simp [ visitTypeAnnotation, TypeAnnotation, TSTypeReference, JSValue.read, JSValue.get,
      lookup, JSValue.isStr, JSValue.truthy, Outcome.seq, Outcome.done, Outcome.throw, checkType]
  | cons a rest =>
    have h := visitTypeParameterInstantiation_namedTypes bannedTypes (a :: rest)
    simp only [List.map_cons] at h
    simp [ visitTypeAnnotation, TypeAnnotation, TSTypeReference, JSValue.read, JSValue.get,
      lookup, JSValue.isStr, truthy_TypeParameterInstantiation, h, seq_done_left, checkType,
      Outcome.throw]

theorem visitVariableDeclarator_binding (bannedTypes : List BannedType) ( annotation : JSValue) :
    visitVariableDeclarator bannedTypes (binding annotation) =
      visitTypeAnnotation bannedTypes ( TypeAnnotation annotation) := by
  simp [visitVariableDeclarator, binding, VariableDeclarator, AnnotatedIdentifier,
    TypeAnnotation, JSValue.read, JSValue.get, lookup, JSValue.truthy]

/-! ## The claims -/

/-- C1 (the code's behaviour at the claimed input): on the binding `foo: n`,
whose annotation is the wrapper of a named type reference `n` without generic
arguments, `visitVariableDeclarator` reports nothing and raises, whatever the
ruleset: the reference branch of `visitTypeAnnotation` passes `node.typeName`,
read on the wrapper and hence `undefined`, to `checkType`. -/
theorem C1_named_reference_binding_raises (bannedTypes : List BannedType) (n : String) :
    visitVariableDeclarator bannedTypes (binding (TSTypeReference n [])) =
      ⟨[], some JSError.typeError⟩ := by
  rw [visitVariableDeclarator_binding]
  exact visitTypeAnnotation_TSTypeReference bannedTypes n []

/-- C2 (counterexample): with two rules that both match the name `A`,
`checkType` reports two diagnostics for the one node, the second carrying
the message of the later rule. -/
theorem C2_two_matching_rules_report_twice :
    ¬ ((checkType [ruleFor "A" "first", ruleFor "A" "second"] (Identifier "A")).reports.length ≤ 1)
    ∧ (checkType [ruleFor "A" "first", ruleFor "A" "second"] (Identifier "A")).reports.map
        (fun r => r.data.additionalMessage) = ["first", "second"] := by
  constructor <;> decide

/-- C2 (amended): for a node with a string name, `checkType` returns after
reporting one diagnostic for every rule that matches the name, in
configuration order; the first diagnostic carries the message of the earliest
matching rule, and there is at most one diagnostic when at most one rule
matches. -/
theorem C2_checkType_reports_each_matching_rule (bannedTypes : List BannedType)
    (node : JSValue) (n : String) (h : node.get "name" = some (JSValue.str n)) :
    checkType bannedTypes node =
        ⟨(bannedTypes.filter fun b => b.pattern.test n).map (reportFor node n), none⟩
    ∧ (checkType bannedTypes node).reports.head?.map (fun r => r.data.additionalMessage) =
        (bannedTypes.find? fun b => b.pattern.test n).map (fun b => b.message)
    ∧ ((bannedTypes.filter fun b => b.pattern.test n).length ≤ 1 →
        (checkType bannedTypes node).reports.length ≤ 1) := by
  have hc : checkType bannedTypes node =
      ⟨(bannedTypes.filter fun b => b.pattern.test n).map (reportFor node n), none⟩ := by
    simp [checkType, h, checkTypeLoop_eq_filter]
  refine ⟨hc, ?_, ?_⟩
  · rw [hc]
    induction bannedTypes with
    | nil => rfl
    | cons b rest ih =>
      by_cases hb : b.pattern.test n = true
      · simp [List.filter_cons, List.find?_cons, hb, reportFor]
      · have ih2 := ih (by simp [checkType, h, checkTypeLoop_eq_filter])
        simpa [List.filter_cons, List.find?_cons, hb] using ih2
  · intro hl
    rw [hc]
    simpa using hl

/-- Witness of C2 (amended): the identifier `A` under the two rules `A` (message
`first`) and `B`. -/
theorem C2_checkType_reports_each_matching_rule_witness :
    (Identifier "A").get "name" = some (JSValue.str "A")
    ∧ (checkType [ruleFor "A" "first", ruleFor "B" ""] (Identifier "A") =
        ⟨([ruleFor "A" "first", ruleFor "B" ""].filter fun b => b.pattern.test "A").map
          (reportFor (Identifier "A") "A"), none⟩
      ∧ (checkType [ruleFor "A" "first", ruleFor "B" ""] (Identifier "A")).reports.head?.map
          (fun r => r.data.additionalMessage) =
          ([ruleFor "A" "first", ruleFor "B" ""].find? fun b => b.pattern.test "A").map
            (fun b => b.message)
      ∧ (([ruleFor "A" "first", ruleFor "B" ""].filter fun b => b.pattern.test "A").length ≤ 1 →
          (checkType [ruleFor "A" "first", ruleFor "B" ""] (Identifier "A")).reports.length ≤ 1)) :=
  ⟨rfl, C2_checkType_reports_each_matching_rule [ruleFor "A" "first", ruleFor "B" ""]
    (Identifier "A") "A" rfl⟩

/-- C3 (the code's behaviour at the claimed input): on the binding
`foo: n<a1, ..., ak>` with plain named types as generic arguments,
`visitVariableDeclarator` reports nothing and raises, whatever the ruleset and
whichever of `n`, `a1`, ..., `ak` a rule matches: no argument node has a `name`
of its own, and `node.typeName` is read on the wrapper. -/
theorem C3_generic_reference_binding_raises (bannedTypes : List BannedType) (n : String)
    (args : List String) :
    visitVariableDeclarator bannedTypes (binding (TSTypeReference n (args.map namedType))) =
      ⟨[], some JSError.typeError⟩ := by
  rw [visitVariableDeclarator_binding]
  exact visitTypeAnnotation_TSTypeReference bannedTypes n args

/-- C4 (the code's behaviour at the claimed input): for every depth `d + 1`,
on the binding whose annotation nests the name `banned` inside `d + 1` generic
references, `visitVariableDeclarator` reports nothing and raises, whatever the
ruleset. -/
theorem C4_nested_generic_argument_raises (bannedTypes : List BannedType) (banned : String)
    (d : Nat) :
    visitVariableDeclarator bannedTypes (binding (nested banned (d + 1))) =
      ⟨[], some JSError.typeError⟩ := by
  rw [visitVariableDeclarator_binding]
  have harg : checkType bannedTypes (nested banned d) = Outcome.done := by
    cases d with
    | zero => exact checkType_namedType bannedTypes banned
    | succ k => exact checkType_TSTypeReference bannedTypes "Outer" [nested banned k]
  have h := visitTypeParameterInstantiation_params bannedTypes [nested banned d]
  simp only [forEachItems, harg, seq_done_left] at h
  simp [nested, visitTypeAnnotation, TypeAnnotation, TSTypeReference, JSValue.read, JSValue.get,
    lookup, JSValue.isStr, truthy_TypeParameterInstantiation, h, seq_done_left, checkType,
    Outcome.throw]

/-- C5 (the code's behaviour at the claimed input): on a binding whose
annotation is a function-type signature without type parameters,
`visitVariableDeclarator` returns without reporting, whatever the ruleset,
the parameters and the return type of the signature. -/
theorem C5_function_type_members_not_visited (bannedTypes : List BannedType)
    (parameters : List JSValue) (returnType : JSValue) :
    visitVariableDeclarator bannedTypes (binding (TSFunctionType parameters returnType)) =
      ⟨[], none⟩ := by
  rw [visitVariableDeclarator_binding]
  simp [ visitTypeAnnotation, TypeAnnotation, TSFunctionType, JSValue.read, JSValue.get,
    lookup, JSValue.isStr, JSValue.truthy, Outcome.done]

/-- C6 (the code's behaviour at a failing input): for the expression statement
`(class<t> {});` or `(function<t>() {});` and a rule for the name `t`,
`visitExpressionStatement` reports one diagnostic whose node is the declared
type parameter `t` itself, while `visitClass` and `visitFunction` on the same
class or function report nothing. -/
theorem C6_expression_statement_reports_type_parameter (t message : String) :
    visitExpressionStatement [ruleFor t message]
        (ExpressionStatement
          (ClassExpression (TypeParameterDeclaration [TypeParameter t JSValue.undefined]))) =
      ⟨[⟨TypeParameter t JSValue.undefined, "bannedType", ⟨t, message⟩⟩], none⟩
    ∧ visitExpressionStatement [ruleFor t message]
        (ExpressionStatement
          (FunctionNode "FunctionExpression"
            (TypeParameterDeclaration [TypeParameter t JSValue.undefined]) [] JSValue.undefined)) =
      ⟨[⟨TypeParameter t JSValue.undefined, "bannedType", ⟨t, message⟩⟩], none⟩
    ∧ visitClass [ruleFor t message]
        (ClassExpression (TypeParameterDeclaration [TypeParameter t JSValue.undefined])) =
      ⟨[], none⟩
    ∧ visitFunction [ruleFor t message]
        (FunctionNode "FunctionExpression"
          (TypeParameterDeclaration [TypeParameter t JSValue.undefined]) [] JSValue.undefined) =
      ⟨[], none⟩ := by
  refine ⟨?_, ?_, ?_, ?_⟩
  · simp [visitExpressionStatement, ExpressionStatement, ClassExpression,
      TypeParameterDeclaration, TypeParameter, visitTypeParameterInstantiation, JSValue.read,
      JSValue.get, lookup, JSValue.truthy, forEach, forEachItems, checkType, checkTypeLoop,
      ruleFor, RegExp.exact, Outcome.seq, Outcome.done]
  · simp [visitExpressionStatement, ExpressionStatement, FunctionNode,
      TypeParameterDeclaration, TypeParameter, visitTypeParameterInstantiation, JSValue.read,
      JSValue.get, lookup, JSValue.truthy, forEach, forEachItems, checkType, checkTypeLoop,
      ruleFor, RegExp.exact, Outcome.seq, Outcome.done]
  · simp [visitClass, ClassExpression, TypeParameterDeclaration, TypeParameter,
      visitTypeParameterDeclaration, visitTypeParameter, JSValue.read, JSValue.get, lookup,
      JSValue.truthy, JSValue.isStr, forEach, forEachItems, Outcome.seq, Outcome.done]
  · simp [visitFunction, FunctionNode, TypeParameterDeclaration, TypeParameter,
      visitTypeParameterDeclaration, visitTypeParameter, JSValue.read, JSValue.get, lookup,
      JSValue.truthy, JSValue.isStr, forEach, forEachItems, Outcome.seq, Outcome.done]

/-- C7 (the code's behaviour at the claimed inputs): on a function of any of
the three kinds with one parameter annotated `x: n`, and on one with return
type `n`, `visitFunction` reports nothing and raises, whatever the ruleset. -/
theorem C7_annotated_function_raises (bannedTypes : List BannedType) (kind n : String) :
    visitFunction bannedTypes
        (FunctionNode kind JSValue.undefined [AnnotatedIdentifier "x" (namedType n)]
          JSValue.undefined) = ⟨[], some JSError.typeError⟩
    ∧ visitFunction bannedTypes
        (FunctionNode kind JSValue.undefined [] ( TypeAnnotation (namedType n))) =
      ⟨[], some JSError.typeError⟩ := by
  have h := visitTypeAnnotation_TSTypeReference bannedTypes n []
  simp only [List.map_nil] at h
  constructor
  · have hp : visitParam bannedTypes (AnnotatedIdentifier "x" (namedType n)) =
        Outcome.throw := by
      simp only [visitParam, AnnotatedIdentifier, JSValue.read, JSValue.get, lookup, namedType]
      simpa [ TypeAnnotation, JSValue.truthy] using h
    simp [visitFunction, FunctionNode, JSValue.read, JSValue.get, lookup, JSValue.truthy,
      forEach, forEachItems, hp, Outcome.seq, Outcome.throw, Outcome.done]
  · have ht : ( TypeAnnotation (namedType n)).truthy = true := rfl
    simp only [namedType] at ht ⊢
    simp [visitFunction, FunctionNode, JSValue.read, JSValue.get, lookup, ht, h,
      Outcome.seq, Outcome.throw]

/-- C8 (the code's behaviour at the claimed inputs): for a type-parameter list
`<t = n>` or `<t = Outer<n>>`, `visitTypeParameterDeclaration` returns without
reporting, whatever the ruleset: the default is handed to `checkType`, and
a named type reference has no `name` of its own. -/
theorem C8_type_parameter_default_not_reported (bannedTypes : List BannedType) (t n : String) :
    visitTypeParameterDeclaration bannedTypes
        (TypeParameterDeclaration [TypeParameter t (namedType n)]) = ⟨[], none⟩
    ∧ visitTypeParameterDeclaration bannedTypes
        (TypeParameterDeclaration [TypeParameter t (TSTypeReference "Outer" [namedType n])]) =
      ⟨[], none⟩ := by
  have h1 := checkType_TSTypeReference bannedTypes n []
  have h2 := checkType_TSTypeReference bannedTypes "Outer" [namedType n]
  have t1 : (TSTypeReference n []).truthy = true := rfl
  have t2 : (TSTypeReference "Outer" [namedType n]).truthy = true := rfl
  constructor
  · simp [visitTypeParameterDeclaration, TypeParameterDeclaration, TypeParameter,
      visitTypeParameter, JSValue.read, JSValue.get, lookup, JSValue.truthy, JSValue.isStr,
      forEach, forEachItems, namedType, h1, t1, Outcome.seq, Outcome.done]
  · simp [visitTypeParameterDeclaration, TypeParameterDeclaration, TypeParameter,
      visitTypeParameter, JSValue.read, JSValue.get, lookup, JSValue.truthy, JSValue.isStr,
      forEach, forEachItems, h2, t2, Outcome.seq, Outcome.done]

/-- C9 (the code's behaviour at the claimed inputs): for the expression
statements `new Foo<a1, ..., ak>()` and `foo<a1, ..., ak>()` with plain named
types as generic arguments, `visitExpressionStatement` returns without
reporting, whatever the ruleset and whichever argument a rule matches. -/
theorem C9_explicit_generic_arguments_not_reported (bannedTypes : List BannedType)
    (args : List String) :
    visitExpressionStatement bannedTypes
        (ExpressionStatement (NewExpression "Foo" (args.map namedType))) = ⟨[], none⟩
    ∧ visitExpressionStatement bannedTypes
        (ExpressionStatement (CallExpression "foo" (args.map namedType))) = ⟨[], none⟩ := by
  have h := visitTypeParameterInstantiation_namedTypes bannedTypes args
  constructor
  · simp [visitExpressionStatement, ExpressionStatement, NewExpression, JSValue.read,
      JSValue.get, lookup, JSValue.truthy, truthy_TypeParameterInstantiation, h, Outcome.done]
  · simp [visitExpressionStatement, ExpressionStatement, CallExpression, JSValue.read,
      JSValue.get, lookup, JSValue.truthy, truthy_TypeParameterInstantiation, h, Outcome.done]

/-- C10: for every ruleset and every list of generic-argument nodes,
`visitTypeParameterInstantiation` returns, and its outcome on the list is its
outcome on the sub-list of arguments whose name matches some rule, in order;
on the arguments whose name matches no rule it reports nothing. -/
theorem C10_unmatched_arguments_do_not_interfere (bannedTypes : List BannedType)
    (args : List (List (String × JSValue))) :
    visitTypeParameterInstantiation bannedTypes
        (TypeParameterInstantiation (args.map JSValue.obj)) =
      visitTypeParameterInstantiation bannedTypes
        (TypeParameterInstantiation ((args.map JSValue.obj).filter (nameMatches bannedTypes)))
    ∧ (visitTypeParameterInstantiation bannedTypes
        (TypeParameterInstantiation (args.map JSValue.obj))).raised = none
    ∧ visitTypeParameterInstantiation bannedTypes
        (TypeParameterInstantiation
          ((args.map JSValue.obj).filter fun a => !nameMatches bannedTypes a)) =
      ⟨[], none⟩ := by
  simp only [visitTypeParameterInstantiation_params]
  refine ⟨?_, ?_, ?_⟩
  · induction args with
    | nil => rfl
    | cons a rest ih =>
      by_cases hm : nameMatches bannedTypes (JSValue.obj a) = true
      · simp [List.filter_cons, hm, forEachItems, ih]
      · have hd := checkType_of_not_nameMatches bannedTypes a (by simpa using hm)
        simp [List.filter_cons, hm, forEachItems, hd, seq_done_left, ih]
  · induction args with
    | nil => rfl
    | cons a rest ih =>
      simp only [List.map_cons, forEachItems, Outcome.seq, checkType_obj_raised]
      exact ih
  · apply forEachItems_done
    intro x hx
    obtain ⟨hx1, hx2⟩ := List.mem_filter.1 hx
    obtain ⟨a, -, rfl⟩ := List.mem_map.1 hx1
    exact checkType_of_not_nameMatches bannedTypes a (by simpa using hx2)

/-! ## Soundness of the reports -/

theorem allReports_done (P : Report → Prop) : Outcome.done.AllReports P := by
  intro r hr
  simp [Outcome.done] at hr

theorem allReports_throw (P : Report → Prop) : Outcome.throw.AllReports P := by
  intro r hr
  simp [Outcome.throw] at hr

theorem allReports_seq {P : Report → Prop} {a b : Outcome} (ha : a.AllReports P)
    (hb : b.AllReports P) : (a.seq b).AllReports P := by
  intro r hr
  unfold Outcome.seq at hr
  cases hra : a.raised with
  | none =>
    simp only [hra, List.mem_append] at hr
    rcases hr with h | h
    · exact ha r h
    · exact hb r h
  | some e =>
    simp only [hra] at hr
    exact ha r hr

theorem allReports_forEachItems {P : Report → Prop} {f : JSValue → Outcome}
    (h : ∀ x, (f x).AllReports P) (items : List JSValue) :
    (forEachItems f items).AllReports P := by
  induction items with
  | nil => exact allReports_done P
  | cons x rest ih => exact allReports_seq (h x) ih

theorem allReports_forEach {P : Report → Prop} {f : JSValue → Outcome}
    (h : ∀ x, (f x).AllReports P) (v : JSValue) : (forEach v f).AllReports P := by
  cases v <;> first
    | exact allReports_throw P
    | exact allReports_forEachItems h _

theorem allReports_read {P : Report → Prop} {k : JSValue → Outcome}
    (h : ∀ x, (k x).AllReports P) (v : JSValue) (key : String) :
    (v.read key k).AllReports P := by
  unfold JSValue.read
  cases v.get key with
  | none => exact allReports_throw P
  | some x => exact h x

theorem allReports_ite {P : Report → Prop} {c : Bool} {a b : Outcome} (ha : a.AllReports P)
    (hb : b.AllReports P) : (if c = true then a else b).AllReports P := by
  cases c
  · simpa using hb
  · simpa using ha

theorem checkTypeLoop_sound (node : JSValue) (type : String) (bannedTypes : List BannedType)
    (hname : node.get "name" = some (JSValue.str type)) :
    ∀ r ∈ checkTypeLoop node type bannedTypes, SoundReport bannedTypes r := by
  intro r hr
  rw [checkTypeLoop_eq_filter] at hr
  obtain ⟨b, hb, rfl⟩ := List.mem_map.1 hr
  obtain ⟨hmem, htest⟩ := List.mem_filter.1 hb
  exact ⟨rfl, hname, b, hmem, htest, rfl⟩

theorem checkType_sound (bannedTypes : List BannedType) (node : JSValue) :
    (checkType bannedTypes node).AllReports (SoundReport bannedTypes) := by
  unfold checkType
  split
  · exact allReports_throw _
  · rename_i type hname
    exact checkTypeLoop_sound node type bannedTypes hname
  · exact allReports_done _

theorem visitTypeParameterInstantiation_sound (bannedTypes : List BannedType) (node : JSValue) :
    (visitTypeParameterInstantiation bannedTypes node).AllReports (SoundReport bannedTypes) :=
  allReports_read (fun _ =>
    allReports_ite (allReports_forEach (checkType_sound bannedTypes) _) (allReports_done _)) _ _

theorem visitTypeParameter_sound (bannedTypes : List BannedType) (param : JSValue) :
    (visitTypeParameter bannedTypes param).AllReports (SoundReport bannedTypes) :=
  allReports_read (fun _ =>
    allReports_ite
      (allReports_read (fun _ =>
        allReports_ite (checkType_sound bannedTypes _) (allReports_done _)) _ _)
      (allReports_done _)) _ _

theorem visitTypeParameterDeclaration_sound (bannedTypes : List BannedType) (node : JSValue) :
    (visitTypeParameterDeclaration bannedTypes node).AllReports (SoundReport bannedTypes) :=
  allReports_read (fun _ =>
    allReports_ite (allReports_forEach (visitTypeParameter_sound bannedTypes) _)
      (allReports_done _)) _ _

theorem visitTypeAnnotation_sound (bannedTypes : List BannedType) (node : JSValue) :
    ( visitTypeAnnotation bannedTypes node).AllReports (SoundReport bannedTypes) :=
  allReports_read (fun _ =>
    allReports_read (fun _ =>
      allReports_ite
        (allReports_read (fun _ =>
          allReports_ite (visitTypeParameterDeclaration_sound bannedTypes _)
            (allReports_done _)) _ _)
        (allReports_ite
          (allReports_seq
            (allReports_read (fun _ =>
              allReports_ite (visitTypeParameterInstantiation_sound bannedTypes _)
                (allReports_done _)) _ _)
            (allReports_read (fun _ => checkType_sound bannedTypes _) _ _))
          (checkType_sound bannedTypes _))) _ _) _ _

theorem visitVariableDeclarator_sound (bannedTypes : List BannedType) (node : JSValue) :
    (visitVariableDeclarator bannedTypes node).AllReports (SoundReport bannedTypes) :=
  allReports_read (fun _ =>
    allReports_ite (allReports_done _)
      (allReports_read (fun _ =>
        allReports_ite (allReports_done _) (visitTypeAnnotation_sound bannedTypes _)) _ _)) _ _

theorem visitParam_sound (bannedTypes : List BannedType) (param : JSValue) :
    (visitParam bannedTypes param).AllReports (SoundReport bannedTypes) :=
  allReports_read (fun _ =>
    allReports_ite (visitTypeAnnotation_sound bannedTypes _) (allReports_done _)) _ _

theorem visitFunction_sound (bannedTypes : List BannedType) (node : JSValue) :
    (visitFunction bannedTypes node).AllReports (SoundReport bannedTypes) :=
  allReports_seq
    (allReports_read (fun _ =>
      allReports_ite (visitTypeAnnotation_sound bannedTypes _) (allReports_done _)) _ _)
    (allReports_seq
      (allReports_read (fun _ =>
        allReports_ite (visitTypeParameterDeclaration_sound bannedTypes _)
          (allReports_done _)) _ _)
      (allReports_read (fun _ =>
        allReports_ite (allReports_forEach (visitParam_sound bannedTypes) _)
          (allReports_done _)) _ _))

theorem visitClass_sound (bannedTypes : List BannedType) (node : JSValue) :
    (visitClass bannedTypes node).AllReports (SoundReport bannedTypes) :=
  allReports_read (fun _ =>
    allReports_ite (visitTypeParameterDeclaration_sound bannedTypes _) (allReports_done _)) _ _

theorem visitExpressionStatement_sound (bannedTypes : List BannedType) (node : JSValue) :
    (visitExpressionStatement bannedTypes node).AllReports (SoundReport bannedTypes) :=
  allReports_read (fun _ =>
    allReports_ite (allReports_done _)
      (allReports_read (fun _ =>
        allReports_ite (allReports_done _)
          (visitTypeParameterInstantiation_sound bannedTypes _)) _ _)) _ _

theorem handlers_sound (bannedTypes : List BannedType) (kind : String) (h : JSValue → Outcome)
    (hmem : (kind, h) ∈ handlers bannedTypes) (node : JSValue) :
    (h node).AllReports (SoundReport bannedTypes) := by
  simp only [handlers, List.mem_cons, Prod.mk.injEq, List.mem_singleton, List.not_mem_nil,
    or_false] at hmem
  rcases hmem with ⟨-, rfl⟩ | ⟨-, rfl⟩ | ⟨-, rfl⟩ | ⟨-, rfl⟩ | ⟨-, rfl⟩ | ⟨-, rfl⟩ | ⟨-, rfl⟩
  · exact visitVariableDeclarator_sound bannedTypes node
  · exact visitFunction_sound bannedTypes node
  · exact visitFunction_sound bannedTypes node
  · exact visitFunction_sound bannedTypes node
  · exact visitClass_sound bannedTypes node
  · exact visitClass_sound bannedTypes node
  · exact visitExpressionStatement_sound bannedTypes node

/-! ## Anchored patterns -/

theorem parseTerm_plain (c : Char) (h : isSyntaxCharacter c = false) :
    parseTerm c = some (PatternTerm.char c) := by
  have h2 := h
  simp [isSyntaxCharacter] at h2
  simp [parseTerm, h, h2.1, h2.2.1]

theorem parsePattern_plain (chars : List Char) (tail : List Char) (ts : List PatternTerm)
    (h : ∀ c ∈ chars, isSyntaxCharacter c = false) (ht : parsePattern tail = some ts) :
    parsePattern (chars ++ tail) = some (chars.map PatternTerm.char ++ ts) := by
  induction chars with
  | nil => simpa using ht
  | cons c rest ih =>
    have hc := parseTerm_plain c (h c (List.mem_cons_self _ _))
    have hr := ih fun d hd => h d (List.mem_cons_of_mem _ hd)
    simp [parsePattern, hc, hr]

theorem parsePattern_anchored (p : String) (h : ∀ c ∈ p.toList, isSyntaxCharacter c = false) :
    parsePattern ("^" ++ p ++ "$").toList =
      some (PatternTerm.assertStart ::
        (p.toList.map PatternTerm.char ++ [PatternTerm.assertEnd])) := by
  have hs : ("^" ++ p ++ "$").toList = '^' :: (p.toList ++ ['$']) := by
    simp [String.toList]
  have hend : parsePattern ['$'] = some [PatternTerm.assertEnd] := rfl
  have hstart : parseTerm '^' = some PatternTerm.assertStart := rfl
  rw [hs]
  show (match parseTerm '^', parsePattern (p.toList ++ ['$']) with
    | some t, some ts => some (t :: ts)
    | _, _ => none) = _
  rw [hstart, parsePattern_plain p.toList ['$'] _ h hend]

theorem matchTerms_chars (chars : List Char) (atStart : Bool) (input : List Char) :
    matchTerms (chars.map PatternTerm.char ++ [PatternTerm.assertEnd]) atStart input = true ↔
      input = chars := by
  induction chars generalizing atStart input with
  | nil => cases input <;> simp [matchTerms]
  | cons c rest ih =>
    cases input with
    | nil => simp [matchTerms]
    | cons d input => simp [matchTerms, ih]

theorem searchFrom_assertStart_later (ts : List PatternTerm) (input : List Char) :
    searchFrom (PatternTerm.assertStart :: ts) false input = false := by
  induction input with
  | nil => simp [searchFrom, matchTerms]
  | cons d rest ih => simp [searchFrom, matchTerms, ih]

theorem searchFrom_assertStart (ts : List PatternTerm) (input : List Char) :
    searchFrom (PatternTerm.assertStart :: ts) true input = matchTerms ts true input := by
  cases input with
  | nil => simp [searchFrom, matchTerms]
  | cons d rest => simp [searchFrom, matchTerms, searchFrom_assertStart_later]

theorem newRegExp_anchored (host : String → Option RegExp) (p : String)
    (h : ∀ c ∈ p.toList, isSyntaxCharacter c = false) :
    ∃ r, newRegExp host ("^" ++ p ++ "$") = some r ∧ ∀ n, r.test n = true ↔ n = p := by
  refine ⟨_, by simp only [newRegExp, parsePattern_anchored p h]; rfl, ?_⟩
  intro n
  simp only [searchFrom_assertStart, matchTerms_chars]
  exact String.toList_inj

theorem createLoop_cons (host : String → Option RegExp) (option : ConfigEntry)
    (rest : List ConfigEntry) :
    createLoop host (option :: rest) =
      match newRegExp host ("^" ++ option.rawName ++ "$") with
      | none => none
      | some pattern =>
        match createLoop host rest with
        | none => none
        | some bannedTypes => some (⟨option.messageOrEmpty, pattern⟩ :: bannedTypes) := rfl

theorem createLoop_entry (host : String → Option RegExp) (before after : List ConfigEntry)
    (entry : ConfigEntry) (rules : List BannedType)
    (h : createLoop host (before ++ entry :: after) = some rules) :
    ∃ banned, rules[before.length]? = some banned
      ∧ newRegExp host ("^" ++ entry.rawName ++ "$") = some banned.pattern
      ∧ banned.message = entry.messageOrEmpty := by
  induction before generalizing rules with
  | nil =>
    rw [List.nil_append, createLoop_cons] at h
    cases hr : newRegExp host ("^" ++ entry.rawName ++ "$") with
    | none => simp [hr] at h
    | some r =>
      cases hl : createLoop host after with
      | none => simp [hr, hl] at h
      | some bs =>
        simp only [hr, hl, Option.some.injEq] at h
        subst h
        exact ⟨⟨entry.messageOrEmpty, r⟩, by simp, rfl, rfl⟩
  | cons o rest ih =>
    rw [List.cons_append, createLoop_cons] at h
    cases hr : newRegExp host ("^" ++ o.rawName ++ "$") with
    | none => simp [hr] at h
    | some r =>
      cases hl : createLoop host (rest ++ entry :: after) with
      | none => simp [hr, hl] at h
      | some bs =>
        simp only [hr, hl, Option.some.injEq] at h
        subst h
        obtain ⟨b, hb, hrest⟩ := ih bs hl
        exact ⟨b, by simpa using hb, hrest⟩

theorem createLoop_fails (host : String → Option RegExp) (options : List ConfigEntry)
    (h : ∃ o ∈ options, newRegExp host ("^" ++ o.rawName ++ "$") = none) :
    createLoop host options = none := by
  induction options with
  | nil =>
    obtain ⟨o, ho, -⟩ := h
    simp at ho
  | cons o rest ih =>
    rw [createLoop_cons]
    cases hr : newRegExp host ("^" ++ o.rawName ++ "$") with
    | none => rfl
    | some r =>
      obtain ⟨o2, ho2, hfail⟩ := h
      rcases List.mem_cons.1 ho2 with heq | hmem
      · subst heq
        rw [hr] at hfail
        cases hfail
      · simp [ih ⟨o2, hmem, hfail⟩]

theorem seq_assoc (a b c : Outcome) : (a.seq b).seq c = a.seq (b.seq c) := by
  cases a with
  | mk ar ae =>
    cases b with
    | mk br be =>
      cases ae <;> cases be <;> simp [Outcome.seq]

theorem forEachItems_append (f : JSValue → Outcome) (xs ys : List JSValue) :
    forEachItems f (xs ++ ys) = (forEachItems f xs).seq (forEachItems f ys) := by
  induction xs with
  | nil => simp [forEachItems, seq_done_left]
  | cons x rest ih => simp [forEachItems, ih, seq_assoc]

theorem forEachItems_checkType_raised (bannedTypes : List BannedType)
    (args : List (List (String × JSValue))) :
    (forEachItems (checkType bannedTypes) (args.map JSValue.obj)).raised = none := by
  induction args with
  | nil => rfl
  | cons a rest ih =>
    simp only [List.map_cons, forEachItems, Outcome.seq, checkType_obj_raised]
    exact ih

theorem reports_eq_nil_of_sound_nil (o : Outcome) (h : o.AllReports (SoundReport [])) :
    o.reports = [] := by
  apply List.eq_nil_iff_forall_not_mem.2
  intro r hr
  obtain ⟨-, -, b, hb, -⟩ := h r hr
  simp at hb

/-- C11 (the code's behaviour at failing inputs): whatever the ruleset, the
handler registered for `VariableDeclarator` raises on the well-formed binding
`const foo: Bar;`, the handler registered for `FunctionDeclaration` raises on
`function foo(): A {}`, and `VariableDeclarator` also raises on a binding
whose annotation wrapper lacks its inner `typeAnnotation`. -/
theorem C11_registered_handlers_raise (bannedTypes : List BannedType) :
    (∃ h, ("VariableDeclarator", h) ∈ handlers bannedTypes
      ∧ (h (binding (namedType "Bar"))).raised = some JSError.typeError)
    ∧ (∃ h, ("FunctionDeclaration", h) ∈ handlers bannedTypes
      ∧ (h (FunctionNode "FunctionDeclaration" JSValue.undefined []
            ( TypeAnnotation (namedType "A")))).raised = some JSError.typeError)
    ∧ (visitVariableDeclarator bannedTypes
        (VariableDeclarator
          (JSValue.obj [("type", JSValue.str "Identifier"), ("name", JSValue.str "foo"),
            ("typeAnnotation", JSValue.obj [("type", JSValue.str "TypeAnnotation")])]))).raised =
      some JSError.typeError := by
  have h := visitTypeAnnotation_TSTypeReference bannedTypes "A" []
  simp only [List.map_nil] at h
  have ht : ( TypeAnnotation (TSTypeReference "A" [])).truthy = true := rfl
  refine ⟨⟨visitVariableDeclarator bannedTypes, by simp [handlers], ?_⟩,
    ⟨visitFunction bannedTypes, by simp [handlers], ?_⟩, ?_⟩
  · rw [visitVariableDeclarator_binding]
    exact congrArg Outcome.raised (visitTypeAnnotation_TSTypeReference bannedTypes "Bar" [])
  · simp [visitFunction, FunctionNode, JSValue.read, JSValue.get, lookup, namedType, ht, h,
      Outcome.seq, Outcome.throw]
  · simp [visitVariableDeclarator, VariableDeclarator, visitTypeAnnotation, JSValue.read,
      JSValue.get, lookup, JSValue.truthy, Outcome.throw]

/-- C13 (the code's behaviour at the claimed input): without options, or with
an empty option list, `create` returns the handlers of the empty ruleset; they
report nothing on any node, but `visitVariableDeclarator` raises on the
binding `var foo: Bar;`. -/
theorem C13_empty_ruleset_still_raises (host : String → Option RegExp) :
    create host none = some (handlers [])
    ∧ create host (some []) = some (handlers [])
    ∧ (∀ node, (visitVariableDeclarator [] node).reports = []
        ∧ (visitFunction [] node).reports = []
        ∧ (visitClass [] node).reports = []
        ∧ (visitExpressionStatement [] node).reports = [])
    ∧ visitVariableDeclarator [] (binding (namedType "Bar")) =
        ⟨[], some JSError.typeError⟩ := by
  refine ⟨rfl, rfl, fun node => ⟨?_, ?_, ?_, ?_⟩, ?_⟩
  · exact reports_eq_nil_of_sound_nil _ (visitVariableDeclarator_sound [] node)
  · exact reports_eq_nil_of_sound_nil _ (visitFunction_sound [] node)
  · exact reports_eq_nil_of_sound_nil _ (visitClass_sound [] node)
  · exact reports_eq_nil_of_sound_nil _ (visitExpressionStatement_sound [] node)
  · rw [visitVariableDeclarator_binding]
    exact visitTypeAnnotation_TSTypeReference [] "Bar" []

/-- C14: for a configuration entry whose `rawName` is `p`, free of syntax
characters, `create` compiles `^p$` successfully, and in every configuration
that compiles, the rule built for that entry (at the entry's position)
matches a name `n` exactly when `n = p`. -/
theorem C14_plain_rawName_matches_exactly (host : String → Option RegExp)
    (before after : List ConfigEntry) (p : String) (message : Option String)
    (rules : List BannedType)
    (hp : ∀ c ∈ p.toList, isSyntaxCharacter c = false)
    (h : createBannedTypes host (some (before ++ ⟨p, message⟩ :: after)) = some rules) :
    (createBannedTypes host (some [⟨p, message⟩])).isSome = true
    ∧ ∃ banned, rules[before.length]? = some banned
        ∧ ∀ n, banned.pattern.test n = true ↔ n = p := by
  obtain ⟨r, hr, htest⟩ := newRegExp_anchored host p hp
  constructor
  · simp [createBannedTypes, createLoop, hr]
  · obtain ⟨banned, hb, hnew, -⟩ := createLoop_entry host before after ⟨p, message⟩ rules h
    refine ⟨banned, hb, ?_⟩
    rw [hr] at hnew
    cases hnew
    exact htest

/-- Witness of C14: the configuration `[["Foo"]]`. -/
theorem C14_plain_rawName_matches_exactly_witness :
    (∀ c ∈ "Foo".toList, isSyntaxCharacter c = false)
    ∧ createBannedTypes (fun _ => none) (some ([] ++ ⟨"Foo", none⟩ :: [])) =
        some [⟨"", ⟨fun s => searchFrom
          [PatternTerm.assertStart, PatternTerm.char 'F', PatternTerm.char 'o',
            PatternTerm.char 'o', PatternTerm.assertEnd] true s.toList⟩⟩]
    ∧ ((createBannedTypes (fun _ => none) (some [⟨"Foo", none⟩])).isSome = true
      ∧ ∃ banned,
          [(⟨"", ⟨fun s => searchFrom
            [PatternTerm.assertStart, PatternTerm.char 'F', PatternTerm.char 'o',
              PatternTerm.char 'o', PatternTerm.assertEnd] true s.toList⟩⟩ : BannedType)][
            ([] : List ConfigEntry).length]? = some banned
          ∧ ∀ n, banned.pattern.test n = true ↔ n = "Foo") :=
  ⟨by decide, rfl,
    C14_plain_rawName_matches_exactly (fun _ => none) [] [] "Foo" none _ (by decide) rfl⟩

/-- C15: for every ruleset, `visitVariableDeclarator` on a declarator whose
`id` holds no type annotation, and `visitFunction` on a function without
return type and type parameters whose parameters hold no type annotation,
return without reporting. -/
theorem C15_unannotated_nodes_contribute_nothing (bannedTypes : List BannedType)
    (declarator id function : List (String × JSValue))
    (params : List (List (String × JSValue)))
    (hid : lookup "id" declarator = JSValue.obj id)
    (hann : (lookup "typeAnnotation" id).truthy = false)
    (hret : (lookup "returnType" function).truthy = false)
    (htps : (lookup "typeParameters" function).truthy = false)
    (hparams : lookup "params" function = JSValue.arr (params.map JSValue.obj))
    (hparam : ∀ param ∈ params, (lookup "typeAnnotation" param).truthy = false) :
    visitVariableDeclarator bannedTypes (JSValue.obj declarator) = ⟨[], none⟩
    ∧ visitFunction bannedTypes (JSValue.obj function) = ⟨[], none⟩ := by
  have hobj : (JSValue.obj id).truthy = true := rfl
  have harr : (JSValue.arr (params.map JSValue.obj)).truthy = true := rfl
  constructor
  · simp [visitVariableDeclarator, JSValue.read, JSValue.get, hid, hann, hobj, Outcome.done]
  · have hloop : forEachItems (visitParam bannedTypes) (params.map JSValue.obj) =
        Outcome.done := by
      apply forEachItems_done
      intro x hx
      obtain ⟨param, hmem, rfl⟩ := List.mem_map.1 hx
      simp [visitParam, JSValue.read, JSValue.get, hparam param hmem]
    simp [visitFunction, JSValue.read, JSValue.get, hret, htps, hparams, harr, forEach,
      hloop, Outcome.seq, Outcome.done]

/-- Witness of C15: the declarator of `let foo;` and the function
`function foo(x) {}`. -/
theorem C15_unannotated_nodes_contribute_nothing_witness :
    lookup "id" [("type", JSValue.str "VariableDeclarator"), ("id", Identifier "foo"),
        ("init", JSValue.null)] =
      JSValue.obj [("type", JSValue.str "Identifier"), ("name", JSValue.str "foo")]
    ∧ (lookup "typeAnnotation"
        [("type", JSValue.str "Identifier"), ("name", JSValue.str "foo")]).truthy = false
    ∧ (visitVariableDeclarator [ruleFor "A" ""] (VariableDeclarator (Identifier "foo")) =
        ⟨[], none⟩
      ∧ visitFunction [ruleFor "A" ""]
          (FunctionNode "FunctionDeclaration" JSValue.undefined [Identifier "x"]
            JSValue.undefined) = ⟨[], none⟩) :=
  ⟨rfl, rfl,
    C15_unannotated_nodes_contribute_nothing [ruleFor "A" ""]
      [("type", JSValue.str "VariableDeclarator"), ("id", Identifier "foo"),
        ("init", JSValue.null)]
      [("type", JSValue.str "Identifier"), ("name", JSValue.str "foo")]
      [("type", JSValue.str "FunctionDeclaration"), ("id", JSValue.null),
        ("params", JSValue.arr [Identifier "x"]), ("typeParameters", JSValue.undefined),
        ("returnType", JSValue.undefined)]
      [[("type", JSValue.str "Identifier"), ("name", JSValue.str "x")]]
      rfl rfl rfl rfl rfl
      (fun param hparam => by
        rw [List.mem_singleton.1 hparam]
        rfl)⟩

/-- C16: for every ruleset and every node whose `name` is absent or is not
a string, `checkType` returns without reporting, whatever the patterns of
the ruleset would answer. -/
theorem C16_checkType_tolerates_missing_name (bannedTypes : List BannedType) (node : JSValue)
    (name : JSValue) (hnode : node.get "name" = some name)
    (hname : ∀ s, name ≠ JSValue.str s) :
    checkType bannedTypes node = ⟨[], none⟩ := by
  unfold checkType
  rw [hnode]
  split
  · rename_i heq
    cases heq
  · rename_i type heq
    simp only [Option.some.injEq] at heq
    exact absurd heq (hname type)
  · rfl

/-- Witness of C16: a keyword type node, which has no `name`, under a rule
whose pattern accepts every name. -/
theorem C16_checkType_tolerates_missing_name_witness :
    (TSKeyword "TSStringKeyword").get "name" = some JSValue.undefined
    ∧ (∀ s, JSValue.undefined ≠ JSValue.str s)
    ∧ checkType [⟨"", ⟨fun _ => true⟩⟩] (TSKeyword "TSStringKeyword") = ⟨[], none⟩ :=
  ⟨rfl, fun _ h => JSValue.noConfusion h,
    C16_checkType_tolerates_missing_name [⟨"", ⟨fun _ => true⟩⟩] (TSKeyword "TSStringKeyword")
      JSValue.undefined rfl (fun _ h => JSValue.noConfusion h)⟩

/-- C17 (the code's behaviour at the claimed input): on the binding
`let foo: string;`, whose annotation is a keyword node without a `name`,
`visitVariableDeclarator` returns without reporting, whatever the ruleset. -/
theorem C17_keyword_type_not_reported (bannedTypes : List BannedType) :
    visitVariableDeclarator bannedTypes (binding (TSKeyword "TSStringKeyword")) = ⟨[], none⟩ := by
  rw [visitVariableDeclarator_binding]
  simp [ visitTypeAnnotation, TypeAnnotation, TSKeyword, JSValue.read, JSValue.get, lookup,
    JSValue.isStr, checkType, Outcome.done]

/-- C18: when the constructor rejects the pattern `^rawName$` of some entry of
the configuration, `create` fails and returns no handler, wherever the entry
stands among the others. -/
theorem C18_invalid_pattern_fails_create (host : String → Option RegExp)
    (options : List ConfigEntry)
    (h : ∃ option ∈ options, newRegExp host ("^" ++ option.rawName ++ "$") = none) :
    create host (some options) = none := by
  simp [create, createBannedTypes, createLoop_fails host options h]

/-- Witness of C18: the configuration `[["Foo"], ["("], ["Bar"]]` with a
constructor that rejects `^($`. -/
theorem C18_invalid_pattern_fails_create_witness :
    (∃ option ∈ [(⟨"Foo", none⟩ : ConfigEntry), ⟨"(", none⟩, ⟨"Bar", none⟩],
        newRegExp (fun _ => none) ("^" ++ option.rawName ++ "$") = none)
    ∧ create (fun _ => none) (some [⟨"Foo", none⟩, ⟨"(", none⟩, ⟨"Bar", none⟩]) = none :=
  ⟨⟨⟨"(", none⟩, List.mem_cons_of_mem _ (List.mem_cons_self _ _), rfl⟩,
    C18_invalid_pattern_fails_create (fun _ => none)
      [⟨"Foo", none⟩, ⟨"(", none⟩, ⟨"Bar", none⟩]
      ⟨⟨"(", none⟩, List.mem_cons_of_mem _ (List.mem_cons_self _ _), rfl⟩⟩

/-- C19 (amended): for every ruleset, every node and every registered handler,
each diagnostic the handler reports has message id `bannedType`, its `type` is
the string name of the node it is reported on, and the pattern of some rule of
the ruleset tests true on that name and that rule supplies the additional
message. -/
theorem C19_reports_are_sound (bannedTypes : List BannedType) (kind : String)
    (handler : JSValue → Outcome) (node : JSValue) (r : Report)
    (hreg : (kind, handler) ∈ handlers bannedTypes) (hr : r ∈ (handler node).reports) :
    r.messageId = "bannedType"
    ∧ r.node.get "name" = some (JSValue.str r.data.type_)
    ∧ ∃ banned ∈ bannedTypes,
        banned.pattern.test r.data.type_ = true ∧ r.data.additionalMessage = banned.message :=
  handlers_sound bannedTypes kind handler hreg node r hr

/-- Witness of C19 (amended): the diagnostic reported for the expression statement
`(class<T> {});` under a rule for `T`. -/
theorem C19_reports_are_sound_witness :
    ("ExpressionStatement", visitExpressionStatement [ruleFor "T" "no T"]) ∈
      handlers [ruleFor "T" "no T"]
    ∧ (⟨TypeParameter "T" JSValue.undefined, "bannedType", ⟨"T", "no T"⟩⟩ : Report) ∈
        (visitExpressionStatement [ruleFor "T" "no T"]
          (ExpressionStatement (ClassExpression
            (TypeParameterDeclaration [TypeParameter "T" JSValue.undefined])))).reports
    ∧ ((⟨TypeParameter "T" JSValue.undefined, "bannedType", ⟨"T", "no T"⟩⟩ : Report).messageId =
          "bannedType"
      ∧ (⟨TypeParameter "T" JSValue.undefined, "bannedType",
            ⟨"T", "no T"⟩⟩ : Report).node.get "name" =
          some (JSValue.str
            (⟨TypeParameter "T" JSValue.undefined, "bannedType",
              ⟨"T", "no T"⟩⟩ : Report).data.type_)
      ∧ ∃ banned ∈ [ruleFor "T" "no T"],
          banned.pattern.test
              (⟨TypeParameter "T" JSValue.undefined, "bannedType",
                ⟨"T", "no T"⟩⟩ : Report).data.type_ = true
            ∧ (⟨TypeParameter "T" JSValue.undefined, "bannedType",
                ⟨"T", "no T"⟩⟩ : Report).data.additionalMessage = banned.message) :=
  ⟨by simp [handlers], List.mem_singleton.2 rfl,
    C19_reports_are_sound [ruleFor "T" "no T"] "ExpressionStatement"
      (visitExpressionStatement [ruleFor "T" "no T"])
      (ExpressionStatement (ClassExpression
        (TypeParameterDeclaration [TypeParameter "T" JSValue.undefined])))
      ⟨TypeParameter "T" JSValue.undefined, "bannedType", ⟨"T", "no T"⟩⟩
      (by simp [handlers]) (List.mem_singleton.2 rfl)⟩

/-! ## Handlers on trees as the parser builds them -/

theorem reports_read_child {k : JSValue → Outcome} (v : JSValue) (key : String)
    (h : (k (v.child key)).reports = []) : (v.read key k).reports = [] := by
  unfold JSValue.read
  unfold JSValue.child at h
  cases hg : v.get key with
  | none => rfl
  | some x =>
    rw [hg] at h
    exact h

theorem reports_seq_nil {a b : Outcome} (ha : a.reports = []) (hb : b.reports = []) :
    (a.seq b).reports = [] := by
  unfold Outcome.seq
  cases a.raised <;> simp [ha, hb]

theorem reports_ite_nil {c : Bool} {a b : Outcome} (ha : c = true → a.reports = [])
    (hb : c = false → b.reports = []) : (if c = true then a else b).reports = [] := by
  cases c
  · simpa using hb rfl
  · simpa using ha rfl

theorem reports_forEachItems_nil {f : JSValue → Outcome} (items : List JSValue)
    (h : ∀ x ∈ items, (f x).reports = []) : (forEachItems f items).reports = [] := by
  induction items with
  | nil => rfl
  | cons x rest ih =>
    exact reports_seq_nil (h x (List.mem_cons_self _ _))
      (ih fun y hy => h y (List.mem_cons_of_mem _ hy))

theorem reports_forEach_nil {f : JSValue → Outcome} (v : JSValue)
    (h : ∀ x ∈ v.items, (f x).reports = []) : (forEach v f).reports = [] := by
  cases v <;> first
    | rfl
    | exact reports_forEachItems_nil _ h

theorem reports_checkType_nil (bannedTypes : List BannedType) (v : JSValue)
    (h : hasNoName v = true) : (checkType bannedTypes v).reports = [] := by
  unfold hasNoName at h
  unfold checkType
  split
  · rfl
  · rename_i type heq
    rw [heq] at h
    simp at h
  · rfl

theorem reports_visitTypeParameterInstantiation_nil (bannedTypes : List BannedType)
    (tps : JSValue) (h : typeArgumentsParsed tps = true) :
    (visitTypeParameterInstantiation bannedTypes tps).reports = [] := by
  unfold typeArgumentsParsed at h
  exact reports_read_child _ _ (reports_ite_nil
    (fun _ => reports_forEach_nil _ fun x hx =>
      reports_checkType_nil bannedTypes x (List.all_eq_true.1 h x hx))
    (fun _ => rfl))

theorem reports_visitTypeParameter_nil (bannedTypes : List BannedType) (param : JSValue)
    (h : hasNoName (param.child "default") = true) :
    (visitTypeParameter bannedTypes param).reports = [] :=
  reports_read_child _ _ (reports_ite_nil
    (fun _ => reports_read_child _ _ (reports_ite_nil
      (fun _ => reports_checkType_nil bannedTypes _ h) (fun _ => rfl)))
    (fun _ => rfl))

theorem reports_visitTypeParameterDeclaration_nil (bannedTypes : List BannedType)
    (tps : JSValue) (h : typeParameterDefaultsParsed tps = true) :
    (visitTypeParameterDeclaration bannedTypes tps).reports = [] := by
  unfold typeParameterDefaultsParsed at h
  exact reports_read_child _ _ (reports_ite_nil
    (fun _ => reports_forEach_nil _ fun x hx =>
      reports_visitTypeParameter_nil bannedTypes x (List.all_eq_true.1 h x hx))
    (fun _ => rfl))

theorem reports_visitTypeAnnotation_nil (bannedTypes : List BannedType) (wrapper : JSValue)
    (h : typeAnnotationParsed wrapper = true) :
    ( visitTypeAnnotation bannedTypes wrapper).reports = [] := by
  unfold typeAnnotationParsed at h
  simp only [Bool.and_eq_true] at h
  obtain ⟨⟨hname, htypeName⟩, hkind⟩ := h
  refine reports_read_child _ _ (reports_read_child _ _ (reports_ite_nil ?_ ?_))
  · intro hf
    rw [if_pos hf] at hkind
    exact reports_read_child _ _ (reports_ite_nil
      (fun _ => reports_visitTypeParameterDeclaration_nil bannedTypes _ hkind) (fun _ => rfl))
  · intro hf
    rw [if_neg (by simp [hf])] at hkind
    refine reports_ite_nil ?_ ?_
    · intro hr
      rw [if_pos hr] at hkind
      exact reports_seq_nil
        (reports_read_child _ _ (reports_ite_nil
          (fun _ => reports_visitTypeParameterInstantiation_nil bannedTypes _ hkind)
          (fun _ => rfl)))
        (reports_read_child _ _ (reports_checkType_nil bannedTypes _ htypeName))
    · intro _
      exact reports_checkType_nil bannedTypes _ hname

theorem reports_visitVariableDeclarator_nil (bannedTypes : List BannedType) (node : JSValue)
    (h : typeAnnotationParsed ((node.child "id").child "typeAnnotation") = true) :
    (visitVariableDeclarator bannedTypes node).reports = [] :=
  reports_read_child _ _ (reports_ite_nil (fun _ => rfl)
    (fun _ => reports_read_child _ _ (reports_ite_nil (fun _ => rfl)
      (fun _ => reports_visitTypeAnnotation_nil bannedTypes _ h))))

theorem reports_visitParam_nil (bannedTypes : List BannedType) (param : JSValue)
    (h : typeAnnotationParsed (param.child "typeAnnotation") = true) :
    (visitParam bannedTypes param).reports = [] :=
  reports_read_child _ _ (reports_ite_nil
    (fun _ => reports_visitTypeAnnotation_nil bannedTypes _ h) (fun _ => rfl))

theorem reports_visitFunction_nil (bannedTypes : List BannedType) (node : JSValue)
    (hret : typeAnnotationParsed (node.child "returnType") = true)
    (htps : typeParameterDefaultsParsed (node.child "typeParameters") = true)
    (hparams : ((node.child "params").items.all fun param =>
      typeAnnotationParsed (param.child "typeAnnotation")) = true) :
    (visitFunction bannedTypes node).reports = [] :=
  reports_seq_nil
    (reports_read_child _ _ (reports_ite_nil
      (fun _ => reports_visitTypeAnnotation_nil bannedTypes _ hret) (fun _ => rfl)))
    (reports_seq_nil
      (reports_read_child _ _ (reports_ite_nil
        (fun _ => reports_visitTypeParameterDeclaration_nil bannedTypes _ htps) (fun _ => rfl)))
      (reports_read_child _ _ (reports_ite_nil
        (fun _ => reports_forEach_nil _ fun x hx =>
          reports_visitParam_nil bannedTypes x (List.all_eq_true.1 hparams x hx))
        (fun _ => rfl))))

theorem reports_visitClass_nil (bannedTypes : List BannedType) (node : JSValue)
    (htps : typeParameterDefaultsParsed (node.child "typeParameters") = true) :
    (visitClass bannedTypes node).reports = [] :=
  reports_read_child _ _ (reports_ite_nil
    (fun _ => reports_visitTypeParameterDeclaration_nil bannedTypes _ htps) (fun _ => rfl))

theorem checkType_present_raised (bannedTypes : List BannedType) (v : JSValue)
    (h : v.present = true) : (checkType bannedTypes v).raised = none := by
  unfold checkType
  split
  · rename_i heq
    cases v <;> simp [JSValue.present, JSValue.get] at h heq
  · rfl
  · rfl

theorem forEachItems_checkType_present (bannedTypes : List BannedType) (items : List JSValue)
    (h : items.all JSValue.present = true) :
    (forEachItems (checkType bannedTypes) items).raised = none := by
  induction items with
  | nil => rfl
  | cons x rest ih =>
    simp only [List.all_cons, Bool.and_eq_true] at h
    simp only [forEachItems, Outcome.seq, checkType_present_raised bannedTypes x h.1]
    exact ih h.2

theorem atomic_read_child {k : JSValue → Outcome} (v : JSValue) (key : String)
    (h : (k (v.child key)).raised = none ∨ (k (v.child key)).reports = []) :
    (v.read key k).raised = none ∨ (v.read key k).reports = [] := by
  unfold JSValue.read
  unfold JSValue.child at h
  cases hg : v.get key with
  | none => exact Or.inr rfl
  | some x =>
    rw [hg] at h
    exact h

theorem atomic_ite {c : Bool} {a b : Outcome}
    (ha : c = true → a.raised = none ∨ a.reports = [])
    (hb : c = false → b.raised = none ∨ b.reports = []) :
    (if c = true then a else b).raised = none ∨ (if c = true then a else b).reports = [] := by
  cases c
  · simpa using hb rfl
  · simpa using ha rfl

theorem forEach_checkType_atomic (bannedTypes : List BannedType) (ps : JSValue)
    (h : ps.items.all JSValue.present = true) :
    (forEach ps (checkType bannedTypes)).raised = none
      ∨ (forEach ps (checkType bannedTypes)).reports = [] := by
  cases ps with
  | arr items => exact Or.inl (forEachItems_checkType_present bannedTypes items h)
  | _ => exact Or.inr rfl

theorem visitTypeParameterInstantiation_atomic (bannedTypes : List BannedType) (tps : JSValue)
    (h : (tps.child "params").items.all JSValue.present = true) :
    (visitTypeParameterInstantiation bannedTypes tps).raised = none
      ∨ (visitTypeParameterInstantiation bannedTypes tps).reports = [] :=
  atomic_read_child _ _ (atomic_ite
    (fun _ => forEach_checkType_atomic bannedTypes _ h) (fun _ => Or.inl rfl))

theorem visitExpressionStatement_atomic (bannedTypes : List BannedType) (node : JSValue)
    (h : (((node.child "expression").child "typeParameters").child "params").items.all
      JSValue.present = true) :
    (visitExpressionStatement bannedTypes node).raised = none
      ∨ (visitExpressionStatement bannedTypes node).reports = [] :=
  atomic_read_child _ _ (atomic_ite (fun _ => Or.inl rfl)
    (fun _ => atomic_read_child _ _ (atomic_ite (fun _ => Or.inl rfl)
      (fun _ => visitTypeParameterInstantiation_atomic bannedTypes _ h))))

/-- C12: for every ruleset, every node as the parser builds it (`parsedNode`:
type nodes hold no string name of their own, the elements of a list are
nodes, any optional child may be absent) and every registered handler, an
invocation that raises has reported no diagnostic. -/
theorem C12_no_report_before_raise (bannedTypes : List BannedType) (kind : String)
    (handler : JSValue → Outcome) (node : JSValue)
    (hparsed : parsedNode node = true)
    (hreg : (kind, handler) ∈ handlers bannedTypes)
    (hraised : (handler node).raised ≠ none) :
    (handler node).reports = [] := by
  unfold parsedNode at hparsed
  simp only [Bool.and_eq_true] at hparsed
  obtain ⟨⟨⟨⟨hid, hret⟩, htps⟩, hparams⟩, hexpr⟩ := hparsed
  simp only [handlers, List.mem_cons, Prod.mk.injEq, List.mem_singleton, List.not_mem_nil,
    or_false] at hreg
  rcases hreg with ⟨-, rfl⟩ | ⟨-, rfl⟩ | ⟨-, rfl⟩ | ⟨-, rfl⟩ | ⟨-, rfl⟩ | ⟨-, rfl⟩ | ⟨-, rfl⟩
  · exact reports_visitVariableDeclarator_nil bannedTypes node hid
  · exact reports_visitFunction_nil bannedTypes node hret htps hparams
  · exact reports_visitFunction_nil bannedTypes node hret htps hparams
  · exact reports_visitFunction_nil bannedTypes node hret htps hparams
  · exact reports_visitClass_nil bannedTypes node htps
  · exact reports_visitClass_nil bannedTypes node htps
  · rcases visitExpressionStatement_atomic bannedTypes node hexpr with h | h
    · exact absurd h hraised
    · exact h

/-- Witness of C12: the binding `let foo: Bar<A, B>;` under a rule for `A`, on
which the handler raises. -/
theorem C12_no_report_before_raise_witness :
    parsedNode (binding (TSTypeReference "Bar" [namedType "A", namedType "B"])) = true
    ∧ ("VariableDeclarator", visitVariableDeclarator [ruleFor "A" ""]) ∈
        handlers [ruleFor "A" ""]
    ∧ (visitVariableDeclarator [ruleFor "A" ""]
        (binding (TSTypeReference "Bar" [namedType "A", namedType "B"]))).raised ≠ none
    ∧ (visitVariableDeclarator [ruleFor "A" ""]
        (binding (TSTypeReference "Bar" [namedType "A", namedType "B"]))).reports = [] :=
  ⟨by decide, by simp [handlers], by decide,
    C12_no_report_before_raise [ruleFor "A" ""] "VariableDeclarator"
      (visitVariableDeclarator [ruleFor "A" ""])
      (binding (TSTypeReference "Bar" [namedType "A", namedType "B"]))
      (by decide) (by simp [handlers]) (by decide)⟩

/-- C19 (counterexample): under the options `[["Foo|Bar"]]` the compiled
pattern `^Foo|Bar$` tests true on `FooX`, so the handler of the expression
statement `(class<FooX> {});` reports the name `FooX`, which the pattern does
not match in full (nor does `Foo|Bar`). -/
theorem C19_partially_matched_name_is_reported :
    (createBannedTypes alternationRegExp (some [⟨"Foo|Bar", none⟩])).map
        (fun rules =>
          (visitExpressionStatement rules
            (ExpressionStatement (ClassExpression
              (TypeParameterDeclaration
                [TypeParameter "FooX" JSValue.undefined])))).reports.map
            (fun r => r.data.type_)) = some ["FooX"]
    ∧ fullyMatches "^Foo|Bar$" "FooX" = false
    ∧ fullyMatches "Foo|Bar" "FooX" = false := by
  decide

end BanTypes
